import Mathlib

/-!
Verification development for the Trade-Executor repository core:
the grid-search orchestration layer (`tradeexecutor/backtest/grid_search.py`)
and the indicator computation/caching engine.

The Python code is shallowly embedded: pure functions become Lean functions,
filesystem state becomes an explicit `FileSystem` value threaded through the
operations, and Python exceptions become `Except PyErr`.  Numeric payloads
(pickled backtest results, parquet indicator artifacts) are modelled as opaque
`Nat` contents: the claims under study are about caching, naming and control
flow, never about the numerics themselves.
-/

deriving instance DecidableEq for Except

/-- Python scalar values that can appear as grid / indicator parameters.
`GridParameter.to_path` in the source supports `float`, `int` and `str` and
raises `NotImplementedError` otherwise; we model `int` and `str` values plus an
`other` constructor for every unsupported type (tagged by its type name).
Python equality `1 == "1"` is `False`, matching structural equality here. -/
inductive PyValue where
  | int (i : Int)
  | str (s : String)
  | other (typeName : String)
deriving DecidableEq, Repr

/-- String rendering used in f-string interpolation of a supported value. -/
def PyValue.render : PyValue → String
  | .int i => toString i
  | .str s => s
  | .other t => t

/-- Python exceptions raised by the embedded code. -/
inductive PyErr where
  | assertionError
  | notImplementedError
  | keyError (k : String)
  | osErrorDirectoryNotEmpty
  | osErrorNotADirectory
  | fileExistsError
  | fileNotFoundError
  | signatureMismatch (offending : List String)
  | workerError (code : Nat)
deriving DecidableEq, Repr

/-- `pathlib.Path`: a flag for absoluteness plus the list of segments.
`joinpath` with an absolute right operand discards the left operand, exactly
as in `PurePath.joinpath` ("if a segment is an absolute path, all previous
segments are ignored"). -/
structure FsPath where
  absolute : Bool
  segments : List String
deriving DecidableEq, Repr

/-- `Path.joinpath` / the `/` operator of `pathlib`. -/
def FsPath.joinpath (p q : FsPath) : FsPath :=
  if q.absolute then q else ⟨p.absolute, p.segments ++ q.segments⟩

/-- Append one more segment (joining with a relative single-segment path). -/
def FsPath.child (p : FsPath) (s : String) : FsPath :=
  ⟨p.absolute, p.segments ++ [s]⟩

/-- `p` lies strictly inside directory `d` (so `d` is not empty if `p` exists). -/
def FsPath.strictlyInside (p d : FsPath) : Bool :=
  p.absolute = d.absolute && d.segments.isPrefixOf p.segments && p.segments ≠ d.segments

/-- `mapM` over `Except`, written with explicit matches: fail on the first
error, otherwise collect the results in order. -/
def mapME {α β : Type} (f : α → Except PyErr β) : List α → Except PyErr (List β)
  | [] => .ok []
  | a :: l =>
    match f a with
    | .error e => .error e
    | .ok b =>
      match mapME f l with
      | .error e => .error e
      | .ok bs => .ok (b :: bs)

/-! ## Grid search data model (`tradeexecutor/backtest/grid_search.py`) -/

/-- `GridParameter`: a single named parameter value of one grid combination. -/
structure GridParameter where
  name : String
  value : PyValue
deriving DecidableEq, Repr

/-- `GridParameter.to_path`: renders `name=value` for `float`/`int`/`str`
values and raises `NotImplementedError` for anything else. -/
def GridParameter.to_path (p : GridParameter) : Except PyErr String :=
  match p.value with
  | .int i => .ok (p.name ++ "=" ++ toString i)
  | .str s => .ok (p.name ++ "=" ++ s)
  | .other _ => .error .notImplementedError

/-- Python `hash` of a string modelled by an injective fold over characters;
the exact numbers are irrelevant, only congruence matters. -/
def stringCode (s : String) : Nat :=
  s.data.foldl (fun a c => a * 1114112 + c.toNat + 1) 0

def PyValue.code : PyValue → Nat
  | .int i => 3 * i.natAbs + (if i < 0 then 1 else 0)
  | .str s => 3 * stringCode s + 2
  | .other t => 3 * stringCode t + 1 + 1

/-- `GridParameter.__hash__ = hash((name, value))`. -/
def GridParameter.pyHash (p : GridParameter) : Nat :=
  Nat.pair (stringCode p.name) p.value.code

/-- `GridParameter.__eq__`: compares name and value. -/
def GridParameter.pyEq (p q : GridParameter) : Bool :=
  p.name = q.name && p.value = q.value

/-- `GridCombination`: the shared result root plus the ordered parameter
tuple.  The Python `__post_init__` checks are performed by
`GridCombination.make` below (dataclass construction runs them). -/
structure GridCombination where
  result_path : FsPath
  parameters : List GridParameter
deriving DecidableEq, Repr

/-- `GridCombination.__eq__`: `self.parameters == other.parameters`; the
`result_path` field does not participate. -/
def GridCombination.pyEq (a b : GridCombination) : Bool :=
  a.parameters = b.parameters

/-- `GridCombination.__hash__ = hash(self.parameters)`: depends only on the
parameter tuple. -/
def GridCombination.pyHash (c : GridCombination) : Nat :=
  c.parameters.foldl (fun a p => Nat.pair a p.pyHash) 0

/-- `GridCombination.get_relative_result_path`: `os.path.join` of the
`to_path` renderings, modelled as the list of path segments. -/
def GridCombination.get_relative_result_path (c : GridCombination) :
    Except PyErr (List String) :=
  mapME GridParameter.to_path c.parameters

/-- `GridCombination.get_full_result_path`: `result_path.joinpath(relative)`. -/
def GridCombination.get_full_result_path (c : GridCombination) :
    Except PyErr FsPath :=
  match c.get_relative_result_path with
  | .error e => .error e
  | .ok segs => .ok (c.result_path.joinpath ⟨false, segs⟩)

/-- `GridCombination.validate`: evaluates the relative result path (raising
`NotImplementedError` for unsupported parameter value types). -/
def GridCombination.validate (c : GridCombination) : Except PyErr Unit :=
  match c.get_relative_result_path with
  | .error e => .error e
  | .ok _ => .ok ()

/-- `GridSearchResult`: the backtest outcome for one combination.  The
`state`, `summary` and `metrics` fields are collapsed into one opaque
`content` number — bit-identical payloads have equal `content`. -/
structure GridSearchResult where
  combination : GridCombination
  content : Nat
  cached : Bool
deriving DecidableEq, Repr

/-! ## Filesystem model

A filesystem is the set of existing directories plus a map from file paths to
their pickled contents.  Lookups use the first matching entry; writes prepend,
so the newest write wins. -/

structure FileSystem where
  dirs : List FsPath
  files : List (FsPath × GridSearchResult)
deriving DecidableEq, Repr

def FileSystem.isDir (fs : FileSystem) (p : FsPath) : Bool :=
  fs.dirs.any (fun d => d = p)

def FileSystem.fileContent (fs : FileSystem) (p : FsPath) : Option GridSearchResult :=
  (fs.files.find? (fun e => e.1 = p)).map Prod.snd

def FileSystem.isFile (fs : FileSystem) (p : FsPath) : Bool :=
  (fs.fileContent p).isSome

/-- `Path.exists()`. -/
def FileSystem.pathExists (fs : FileSystem) (p : FsPath) : Bool :=
  fs.isDir p || fs.isFile p

/-- A directory is empty when no existing dir or file lies strictly inside it. -/
def FileSystem.dirIsEmpty (fs : FileSystem) (p : FsPath) : Bool :=
  fs.dirs.all (fun d => ¬ d.strictlyInside p) &&
    fs.files.all (fun e => ¬ e.1.strictlyInside p)

/-- `Path.rmdir()`: removes the directory; raises `NotADirectoryError` when the
path is a file and `OSError` (ENOTEMPTY) when the directory is not empty. -/
def FileSystem.rmdir (fs : FileSystem) (p : FsPath) : Except PyErr FileSystem :=
  if fs.isFile p then .error .osErrorNotADirectory
  else if ¬ fs.dirIsEmpty p then .error .osErrorDirectoryNotEmpty
  else .ok ⟨fs.dirs.filter (fun d => d ≠ p), fs.files⟩

/-- All ancestor paths of `p`, `p` itself included. -/
def FsPath.withAncestors (p : FsPath) : List FsPath :=
  (List.range (p.segments.length + 1)).map (fun n => ⟨p.absolute, p.segments.take n⟩)

/-- `Path.mkdir(parents=True, exist_ok=True)`: creates the directory and its
missing ancestors; raises `FileExistsError` when a file occupies the path or
one of its ancestors. -/
def FileSystem.mkdirParents (fs : FileSystem) (p : FsPath) : Except PyErr FileSystem :=
  if p.withAncestors.any (fun q => fs.isFile q) then .error .fileExistsError
  else .ok ⟨p.withAncestors ++ fs.dirs, fs.files⟩

/-- Write (create or overwrite) a file. -/
def FileSystem.writeFile (fs : FileSystem) (p : FsPath) (c : GridSearchResult) : FileSystem :=
  ⟨fs.dirs, (p, c) :: fs.files⟩

/-! ## Grid search operations -/

/-- `GridCombination.__post_init__`: asserts a non-empty parameter tuple and
that `result_path` is an existing directory (both `AssertionError`). -/
def GridCombination.make (fs : FileSystem) (result_path : FsPath)
    (parameters : List GridParameter) : Except PyErr GridCombination :=
  if parameters.length > 0 then
    if fs.pathExists result_path && fs.isDir result_path then
      .ok ⟨result_path, parameters⟩
    else .error .assertionError
  else .error .assertionError

/-- `GridSearchResult.has_result`: checks existence of
`base_path.joinpath(combination.get_full_result_path()).joinpath("result.pickle")`
where `base_path = combination.result_path` — note the double prefixing of
`result_path`, faithful to the source. -/
def GridSearchResult.has_result (fs : FileSystem) (c : GridCombination) :
    Except PyErr Bool :=
  match c.get_full_result_path with
  | .error e => .error e
  | .ok full => .ok (fs.pathExists ((c.result_path.joinpath full).child "result.pickle"))

/-- `GridSearchResult.load`: unpickles
`combination.get_full_result_path() / "result.pickle"` and sets
`result.cached = True`. -/
def GridSearchResult.load (fs : FileSystem) (c : GridCombination) :
    Except PyErr GridSearchResult :=
  match c.get_full_result_path with
  | .error e => .error e
  | .ok full =>
    match fs.fileContent (full.child "result.pickle") with
    | none => .error .fileNotFoundError
    | some r => .ok { r with cached := true }

/-- `GridSearchResult.save`: creates the combination's result directory and
pickles the result to `result.pickle` inside it. -/
def GridSearchResult.save (fs : FileSystem) (r : GridSearchResult) :
    Except PyErr FileSystem :=
  match r.combination.get_full_result_path with
  | .error e => .error e
  | .ok full =>
    match fs.mkdirParents full with
    | .error e => .error e
    | .ok fs1 => .ok (fs1.writeFile (full.child "result.pickle") r)

/-- A grid search worker (`GridSearchWorker` protocol): runs one backtest for
one combination.  The trading universe is opaque (`Nat`); a raised exception is
an `Except.error`. -/
def Worker : Type :=
  Nat → GridCombination → Except PyErr GridSearchResult

/-- `run_grid_combination`: return the cached result when the artifact exists,
otherwise invoke the worker once and persist its result. -/
def run_grid_combination (w : Worker) (strategy_universe : Nat)
    (c : GridCombination) (fs : FileSystem) :
    Except PyErr (GridSearchResult × FileSystem) :=
  match GridSearchResult.has_result fs c with
  | .error e => .error e
  | .ok true =>
    match GridSearchResult.load fs c with
    | .error e => .error e
    | .ok r => .ok (r, fs)
  | .ok false =>
    match w strategy_universe c with
    | .error e => .error e
    | .ok r =>
      match GridSearchResult.save fs r with
      | .error e => .error e
      | .ok fs1 => .ok (r, fs1)

/-- `perform_grid_search`: runs `run_grid_combination` over every combination.
This is the semantics of the sequential branch (`max_workers == 1`,
`itertools.starmap` forced by `list`); the threaded branch maps the very same
`run_grid_combination` through a task manager with error policy RAISE, so a
raised exception likewise aborts the whole search there. -/
def perform_grid_search (w : Worker) (strategy_universe : Nat)
    (combinations : List GridCombination) (fs : FileSystem) :
    Except PyErr (List GridSearchResult × FileSystem) :=
  match combinations with
  | [] => .ok ([], fs)
  | c :: rest =>
    match run_grid_combination w strategy_universe c fs with
    | .error e => .error e
    | .ok (r, fs1) =>
      match perform_grid_search w strategy_universe rest fs1 with
      | .error e => .error e
      | .ok (rs, fs2) => .ok (r :: rs, fs2)

/-! ## `prepare_grid_combinations` -/

/-- `itertools.product` over a list of candidate lists: the leftmost factor
varies slowest, matching Python's enumeration order. -/
def listProduct {α : Type} : List (List α) → List (List α)
  | [] => [[]]
  | l :: rest => (l.map (fun a => (listProduct rest).map (fun t => a :: t))).flatten

/-- `{p.name: p for p in combination}[o]`: the dict comprehension keeps the
last binding for each name. -/
def dictLookupLast (ps : List GridParameter) (n : String) : Option GridParameter :=
  (ps.filter (fun p => p.name = n)).getLast?

/-- `sort_by_order` (local function in `prepare_grid_combinations`): rebuild
the parameter tuple following the declaration order of the grid's keys.  A
missing name raises `KeyError`. -/
def sort_by_order (order : List String) (ps : List GridParameter) :
    Except PyErr (List GridParameter) :=
  match order with
  | [] => .ok []
  | n :: rest =>
    match dictLookupLast ps n with
    | none => .error (.keyError n)
    | some p =>
      match sort_by_order rest ps with
      | .error e => .error e
      | .ok qs => .ok (p :: qs)

/-- One element of the list comprehension in `prepare_grid_combinations`:
`GridCombination(parameters=sort_by_order(c), result_path=result_path)`. -/
def makeCombination (fs : FileSystem) (result_path : FsPath)
    (order : List String) (c : List GridParameter) : Except PyErr GridCombination :=
  match sort_by_order order c with
  | .error e => .error e
  | .ok ps => GridCombination.make fs result_path ps

/-- The `args_lists` built by `prepare_grid_combinations`: one
`GridParameter` list per grid key. -/
def argsLists (parameters : List (String × List PyValue)) : List (List GridParameter) :=
  parameters.map (fun nv => nv.2.map (fun v => GridParameter.mk nv.1 v))

/-- `prepare_grid_combinations(parameters, result_path, clear_cached_results)`.
The parameter grid is a Python dict: a list of (name, candidate values) pairs
in declaration order, names distinct. -/
def prepare_grid_combinations (parameters : List (String × List PyValue))
    (result_path : FsPath) (clear_cached_results : Bool) (fs : FileSystem) :
    Except PyErr (List GridCombination × FileSystem) :=
  let cleared : Except PyErr FileSystem :=
    if clear_cached_results then
      if fs.pathExists result_path then fs.rmdir result_path else .ok fs
    else .ok fs
  match cleared with
  | .error e => .error e
  | .ok fs1 =>
    match fs1.mkdirParents result_path with
    | .error e => .error e
    | .ok fs2 =>
      let args_lists := argsLists parameters
      let order := parameters.map Prod.fst
      match mapME (makeCombination fs2 result_path order) (listProduct args_lists) with
      | .error e => .error e
      | .ok combinations =>
        match mapME GridCombination.validate combinations with
        | .error e => .error e
        | .ok _ => .ok (combinations, fs2)

/-! ## Indicator computation/caching engine

The module `tradeexecutor/strategy/pandas_trader/indicator.py` is not among
the examined sources; only its test suite
(`tests/backtest/test_indicator.py`) and the specification describe it.  The
definitions below are therefore modelled from the spec. -/

/-- Modelled from the spec: an indicator function (the `func` reference of an
`IndicatorDefinition` in the missing module
`tradeexecutor/strategy/pandas_trader/indicator.py`): the keyword arguments
its signature accepts, plus a pure transform from (parameters, input candle
series) to output data.  Series contents are opaque `Nat`s; bit-identical
series have equal values. -/
structure IndicatorFunction where
  accepted_args : List String
  transform : List (String × PyValue) → Nat → Nat

/-- Modelled from the spec: `IndicatorDefinition` of the missing indicator
module — a name, a function reference and the parameters mapping kept in
insertion order. -/
structure IndicatorDefinition where
  name : String
  func : IndicatorFunction
  parameters : List (String × PyValue)

/-- Modelled from the spec: `IndicatorDefinition` construction (`define`)
validates the parameter names against the function's accepted keyword
arguments and fails with a signature-mismatch error naming the offending
parameters; on success the definition is returned unchanged. -/
def IndicatorDefinition.define (name : String) (func : IndicatorFunction)
    (parameters : List (String × PyValue)) : Except PyErr IndicatorDefinition :=
  match (parameters.map Prod.fst).filter
      (fun k => ¬ func.accepted_args.contains k) with
  | [] => .ok ⟨name, func, parameters⟩
  | offending => .error (.signatureMismatch offending)

/-- Modelled from the spec: `render_path_fragment` of the missing indicator
module renders `name(k1=v1,k2=v2)` with the parameters in insertion order. -/
def IndicatorDefinition.render_path_fragment (d : IndicatorDefinition) : String :=
  d.name ++ "(" ++
    String.intercalate "," (d.parameters.map (fun kv => kv.1 ++ "=" ++ kv.2.render))
    ++ ")"

/-- A trading pair reduced to the two tickers that appear in artifact names. -/
structure TradingPairId where
  base : String
  quote : String
deriving DecidableEq, Repr

/-- Modelled from the spec: `IndicatorStorage` of the missing indicator
module — a root directory plus the universe fingerprint key that namespaces
every artifact. -/
structure IndicatorStorage where
  path : FsPath
  universe_key : String
deriving DecidableEq, Repr

/-- Modelled from the spec: `get_indicator_path` of the missing indicator
module returns `<root>/<universe_key>/<fragment>-<BASE>-<QUOTE>.parquet`,
purely, with no I/O. -/
def IndicatorStorage.get_indicator_path (s : IndicatorStorage)
    (d : IndicatorDefinition) (pair : TradingPairId) : FsPath :=
  (s.path.child s.universe_key).child
    (d.render_path_fragment ++ "-" ++ pair.base ++ "-" ++ pair.quote ++ ".parquet")

/-- The indicator artifact cache directory: an association from artifact paths
to stored (opaque, bit-exact) data.  The newest write wins. -/
def storeGet (files : List (FsPath × Nat)) (p : FsPath) : Option Nat :=
  (files.find? (fun e => e.1 = p)).map Prod.snd

def storeSet (files : List (FsPath × Nat)) (p : FsPath) (d : Nat) :
    List (FsPath × Nat) :=
  (p, d) :: files

/-- Modelled from the spec: one `IndicatorResult` — the output data plus the
`cached` flag telling whether this call loaded it from storage. -/
structure IndicatorResult where
  data : Nat
  cached : Bool
deriving DecidableEq, Repr

/-- Modelled from the spec: `IndicatorSet` registration — a mapping from name
to definition where a duplicate name overwrites (last registration wins) while
the name keeps its first-insertion position, like a Python dict. -/
def firstOccurrence (names : List String) : List String :=
  names.foldl (fun acc n => if acc.contains n then acc else acc ++ [n]) []

/-- Modelled from the spec: the definitions an `IndicatorSet` holds after the
`create_indicators` callback registered `regs` in order (duplicate names:
last registration wins). -/
def indicatorSetDefs (regs : List IndicatorDefinition) : List IndicatorDefinition :=
  (firstOccurrence (regs.map (fun d => d.name))).filterMap
    (fun n => (regs.filter (fun d => d.name = n)).getLast?)

/-- Modelled from the spec: the full Cartesian set of
(pair, indicator definition) keys over the universe's pairs and the
registered indicators. -/
def indicatorKeys (pairs : List TradingPairId) (defs : List IndicatorDefinition) :
    List (TradingPairId × IndicatorDefinition) :=
  (pairs.map (fun pr => defs.map (fun d => (pr, d)))).flatten

/-- Modelled from the spec: the per-key loop of
`calculate_and_load_indicators` — for each key, load the artifact when it
exists (`cached=True`), otherwise compute the indicator function on the
pair's candle data, save the artifact, and report `cached=False`.  The spec
dispatches the computations over workers, but every key is handled by exactly
one worker, so the sequential loop is the engine's semantics. -/
def calcLoadGo (storage : IndicatorStorage) (candles : TradingPairId → Nat)
    (keys : List (TradingPairId × IndicatorDefinition))
    (files : List (FsPath × Nat)) :
    List ((TradingPairId × IndicatorDefinition) × IndicatorResult) × List (FsPath × Nat) :=
  match keys with
  | [] => ([], files)
  | k :: rest =>
    let p := storage.get_indicator_path k.2 k.1
    match storeGet files p with
    | some d =>
      let out := calcLoadGo storage candles rest files
      ((k, ⟨d, true⟩) :: out.1, out.2)
    | none =>
      let d := k.2.func.transform k.2.parameters (candles k.1)
      let out := calcLoadGo storage candles rest (storeSet files p d)
      ((k, ⟨d, false⟩) :: out.1, out.2)

/-- Modelled from the spec: `calculate_and_load_indicators(universe, storage,
create_indicators, ...)` of the missing indicator module.  The universe is
its pair list plus candle data per pair; `regs` is what the
`create_indicators` callback registers; the cache directory state is passed
and returned explicitly.  `max_workers`/`max_readers` only tune parallelism
and do not appear. -/
def calculate_and_load_indicators (pairs : List TradingPairId)
    (candles : TradingPairId → Nat) (storage : IndicatorStorage)
    (regs : List IndicatorDefinition) (files : List (FsPath × Nat)) :
    List ((TradingPairId × IndicatorDefinition) × IndicatorResult) × List (FsPath × Nat) :=
  calcLoadGo storage candles (indicatorKeys pairs (indicatorSetDefs regs)) files

/-! ## Helper lemmas -/

/-- A value whose type `GridParameter.to_path` supports. -/
def PyValue.renderable : PyValue → Bool
  | .other _ => false
  | _ => true

theorem GridParameter.to_path_ok (p : GridParameter) (h : p.value.renderable = true) :
    p.to_path = .ok (p.name ++ "=" ++ p.value.render) := by
  cases hv : p.value with
  | int i => simp [GridParameter.to_path, hv, PyValue.render]
  | str s => simp [GridParameter.to_path, hv, PyValue.render]
  | other t => simp [PyValue.renderable, hv] at h

theorem mapME_ok {α β : Type} (f : α → Except PyErr β) (g : α → β) (l : List α)
    (h : ∀ x ∈ l, f x = .ok (g x)) : mapME f l = .ok (l.map g) := by
  induction l with
  | nil => rfl
  | cons a t ih =>
    simp only [mapME, h a (by simp), ih (fun x hx => h x (by simp [hx])), List.map_cons]

/-! ## Claim theorems -/

/-- C7: two `GridCombination`s compare equal exactly when their parameter
tuples are equal (the `result_path` field contributes nothing), and equal
combinations have equal Python hashes, so combinations work as mapping keys. -/
theorem grid_combination_eq_iff_hash (a b : GridCombination) :
    (GridCombination.pyEq a b = true ↔ a.parameters = b.parameters) ∧
    (GridCombination.pyEq a b = true →
      GridCombination.pyHash a = GridCombination.pyHash b) := by
  constructor
  · simp [GridCombination.pyEq]
  · intro h
    have hp : a.parameters = b.parameters := by
      simpa [GridCombination.pyEq] using h
    simp [GridCombination.pyHash, hp]

/-- Witness for C7: two combinations with equal parameter tuples but distinct
result paths. -/
theorem grid_combination_eq_iff_hash_witness :
    (GridCombination.pyEq ⟨⟨true, ["x"]⟩, [⟨"a", PyValue.int 1⟩]⟩
        ⟨⟨true, ["y"]⟩, [⟨"a", PyValue.int 1⟩]⟩ = true ↔
      ([⟨"a", PyValue.int 1⟩] : List GridParameter) = [⟨"a", PyValue.int 1⟩]) ∧
    (GridCombination.pyEq ⟨⟨true, ["x"]⟩, [⟨"a", PyValue.int 1⟩]⟩
        ⟨⟨true, ["y"]⟩, [⟨"a", PyValue.int 1⟩]⟩ = true →
      GridCombination.pyHash ⟨⟨true, ["x"]⟩, [⟨"a", PyValue.int 1⟩]⟩ =
        GridCombination.pyHash ⟨⟨true, ["y"]⟩, [⟨"a", PyValue.int 1⟩]⟩) :=
  grid_combination_eq_iff_hash _ _

/-- C10: an empty parameter grid makes `prepare_grid_combinations` raise the
`GridCombination.__post_init__` assertion (the Cartesian product of no factors
is the single empty tuple, and a combination with no parameters is rejected),
rather than returning one parameterless combination. -/
theorem empty_grid_asserts (rp : FsPath) (fs : FileSystem)
    (h : ∀ q ∈ rp.withAncestors, fs.isFile q = false) :
    prepare_grid_combinations [] rp false fs = .error .assertionError := by
  have hmk : rp.withAncestors.any (fun q => fs.isFile q) = false := by
    simp only [List.any_eq_false]
    intro q hq
    simp [h q hq]
  simp [prepare_grid_combinations, FileSystem.mkdirParents, hmk, argsLists,
    listProduct, mapME, makeCombination, sort_by_order, GridCombination.make]

/-- Witness for C10 at a concrete empty filesystem. -/
theorem empty_grid_asserts_witness :
    prepare_grid_combinations [] ⟨true, ["results"]⟩ false ⟨[], []⟩ =
      .error .assertionError :=
  empty_grid_asserts _ _ (by decide)

/-- The cached artifact sitting under the result root in the C6 scenario. -/
def c6Stored : GridSearchResult :=
  ⟨⟨⟨true, ["res"]⟩, [⟨"a", PyValue.int 1⟩]⟩, 7, false⟩

/-- A result root that already holds one cached result artifact. -/
def c6Fs : FileSystem :=
  ⟨[⟨true, ["res"]⟩, ⟨true, ["res", "a=1"]⟩],
   [(⟨true, ["res", "a=1", "result.pickle"]⟩, c6Stored)]⟩

/-- C6: with `clear_cached_results=True` and a result root that contains a
previously cached result artifact, `prepare_grid_combinations` does not clear
the directory — `Path.rmdir()` only removes empty directories, so the call
raises `OSError` (directory not empty), contradicting the function's own
docstring ("Clear any existing result files from the saved result cache"). -/
theorem clear_cached_results_raises_on_nonempty :
    c6Fs.fileContent ⟨true, ["res", "a=1", "result.pickle"]⟩ = some c6Stored ∧
    prepare_grid_combinations [("a", [PyValue.int 1])] ⟨true, ["res"]⟩ true c6Fs =
      .error .osErrorDirectoryNotEmpty := by decide

/-- The two colliding parameters of the C5 counterexample: the integer `1`
and the string `"1"` are distinct Python values rendering to the same path. -/
def c5P1 : GridParameter := ⟨"a", PyValue.int 1⟩

def c5P2 : GridParameter := ⟨"a", PyValue.str "1"⟩

/-- C5 counterexample: two distinct combinations derive the same result
subdirectory `a=1`, yet `prepare_grid_combinations` returns them successfully
instead of raising a fatal configuration error — no collision check exists. -/
theorem collision_not_detected_counterexample :
    prepare_grid_combinations [("a", [PyValue.int 1, PyValue.str "1"])]
        ⟨true, ["res"]⟩ false ⟨[], []⟩ =
      .ok ([⟨⟨true, ["res"]⟩, [c5P1]⟩, ⟨⟨true, ["res"]⟩, [c5P2]⟩],
           ⟨[⟨true, []⟩, ⟨true, ["res"]⟩], []⟩) ∧
    c5P1 ≠ c5P2 ∧
    GridCombination.get_relative_result_path ⟨⟨true, ["res"]⟩, [c5P1]⟩ = .ok ["a=1"] ∧
    GridCombination.get_relative_result_path ⟨⟨true, ["res"]⟩, [c5P2]⟩ = .ok ["a=1"] := by
  decide

/-! ## Cartesian product and ordering lemmas for `prepare_grid_combinations` -/

theorem listProduct_mem_cons {α : Type} (l : List α) (rest : List (List α)) (c : List α) :
    c ∈ listProduct (l :: rest) ↔ ∃ a ∈ l, ∃ t ∈ listProduct rest, c = a :: t := by
  constructor
  · intro hc
    simp only [listProduct, List.mem_flatten, List.mem_map] at hc
    obtain ⟨L, ⟨a, ha, rfl⟩, hcL⟩ := hc
    obtain ⟨t, ht, rfl⟩ := List.mem_map.mp hcL
    exact ⟨a, ha, t, ht, rfl⟩
  · rintro ⟨a, ha, t, ht, rfl⟩
    simp only [listProduct, List.mem_flatten, List.mem_map]
    exact ⟨(listProduct rest).map (fun u => a :: u), ⟨a, ha, rfl⟩,
      List.mem_map_of_mem _ ht⟩

theorem sum_map_constNat {α : Type} (l : List α) (n : Nat) :
    (l.map (fun _ => n)).sum = l.length * n := by
  induction l with
  | nil => simp
  | cons a t ih => simp [ih, Nat.succ_mul, Nat.add_comm]

theorem listProduct_length {α : Type} (ls : List (List α)) :
    (listProduct ls).length = (ls.map List.length).prod := by
  induction ls with
  | nil => rfl
  | cons l rest ih =>
    simp only [listProduct, List.length_flatten, List.map_map, List.map_cons,
      List.prod_cons]
    have hconst : List.map (List.length ∘ fun a => (listProduct rest).map (fun t => a :: t)) l
        = l.map (fun _ => (listProduct rest).length) := by
      induction l with
      | nil => rfl
      | cons b bs ihb => simp only [List.map_cons, ihb, Function.comp, List.length_map]
    rw [hconst, sum_map_constNat, ih]

theorem listProduct_argsLists_names (ps : List (String × List PyValue)) :
    ∀ c ∈ listProduct (argsLists ps), c.map GridParameter.name = ps.map Prod.fst := by
  induction ps with
  | nil =>
    intro c hc
    simp only [argsLists, List.map_nil, listProduct, List.mem_singleton] at hc
    simp [hc]
  | cons nv rest ih =>
    intro c hc
    simp only [argsLists, List.map_cons] at hc
    rw [listProduct_mem_cons] at hc
    obtain ⟨a, ha, t, ht, rfl⟩ := hc
    obtain ⟨v, _, rfl⟩ := List.mem_map.mp ha
    simp [ih t ht]

theorem listProduct_argsLists_renderable (ps : List (String × List PyValue))
    (h : ∀ nv ∈ ps, ∀ v ∈ nv.2, PyValue.renderable v = true) :
    ∀ c ∈ listProduct (argsLists ps), ∀ p ∈ c, p.value.renderable = true := by
  induction ps with
  | nil =>
    intro c hc
    simp only [argsLists, List.map_nil, listProduct, List.mem_singleton] at hc
    simp [hc]
  | cons nv rest ih =>
    intro c hc
    simp only [argsLists, List.map_cons] at hc
    rw [listProduct_mem_cons] at hc
    obtain ⟨a, ha, t, ht, rfl⟩ := hc
    obtain ⟨v, hv, rfl⟩ := List.mem_map.mp ha
    intro p hp
    rcases List.mem_cons.mp hp with hph | hpt
    · rw [hph]
      exact h nv (by simp) v hv
    · exact ih (fun mv hmv => h mv (by simp [hmv])) t ht p hpt

theorem dictLookupLast_cons_ne (p : GridParameter) (ps : List GridParameter)
    (n : String) (h : p.name ≠ n) :
    dictLookupLast (p :: ps) n = dictLookupLast ps n := by
  simp [dictLookupLast, List.filter_cons, h]

theorem sort_by_order_cons_ne (order : List String) (p : GridParameter)
    (ps : List GridParameter) (h : ∀ o ∈ order, p.name ≠ o) :
    sort_by_order order (p :: ps) = sort_by_order order ps := by
  induction order with
  | nil => rfl
  | cons n rest ih =>
    have h1 : dictLookupLast (p :: ps) n = dictLookupLast ps n :=
      dictLookupLast_cons_ne _ _ _ (h n (by simp))
    have h2 : sort_by_order rest (p :: ps) = sort_by_order rest ps :=
      ih (fun o ho => h o (by simp [ho]))
    simp only [sort_by_order, h1, h2]

theorem filter_name_eq_nil (ps : List GridParameter) (n : String)
    (h : ∀ p ∈ ps, p.name ≠ n) :
    ps.filter (fun p => p.name = n) = [] := by
  induction ps with
  | nil => rfl
  | cons p t ih =>
    simp [List.filter_cons, h p (by simp), ih (fun q hq => h q (by simp [hq]))]

theorem sort_by_order_id : ∀ (c : List GridParameter) (order : List String),
    c.map GridParameter.name = order → order.Nodup → sort_by_order order c = .ok c := by
  intro c
  induction c with
  | nil =>
    intro order h _
    rw [← h]
    rfl
  | cons p t ih =>
    intro order hmap hnd
    subst hmap
    simp only [List.map_cons] at hnd
    obtain ⟨hnotin, hndtail⟩ := List.nodup_cons.mp hnd
    have hfil : t.filter (fun q => q.name = p.name) = [] := by
      refine filter_name_eq_nil t p.name (fun q hq hqe => hnotin ?_)
      rw [← hqe]
      exact List.mem_map_of_mem _ hq
    have hdict : dictLookupLast (p :: t) p.name = some p := by
      simp [dictLookupLast, List.filter_cons, hfil]
    have hrest : sort_by_order (t.map GridParameter.name) (p :: t) =
        sort_by_order (t.map GridParameter.name) t := by
      refine sort_by_order_cons_ne _ p t (fun o ho hoe => hnotin ?_)
      rw [hoe]
      exact ho
    simp only [List.map_cons, sort_by_order, hdict, hrest, ih _ rfl hndtail]

theorem GridCombination.make_ok (fs : FileSystem) (rp : FsPath)
    (ps : List GridParameter) (h1 : ps ≠ []) (h2 : fs.isDir rp = true) :
    GridCombination.make fs rp ps = .ok ⟨rp, ps⟩ := by
  have hl : ps.length > 0 := List.length_pos.mpr h1
  simp [GridCombination.make, hl, FileSystem.pathExists, h2]

theorem FsPath.self_mem_withAncestors (p : FsPath) : p ∈ p.withAncestors := by
  rcases p with ⟨a, s⟩
  simp only [FsPath.withAncestors, List.mem_map, List.mem_range]
  exact ⟨s.length, by omega, by simp⟩

/-- The master lemma for `prepare_grid_combinations` on a well-formed grid
(non-empty, distinct keys, path-renderable values, no file blocking the
result root): it succeeds and returns exactly the Cartesian product of the
per-key parameter lists, each combination carrying the shared result root. -/
theorem prepare_ok (parameters : List (String × List PyValue)) (rp : FsPath)
    (fs : FileSystem)
    (h1 : parameters ≠ [])
    (h2 : (parameters.map Prod.fst).Nodup)
    (h3 : ∀ nv ∈ parameters, ∀ v ∈ nv.2, PyValue.renderable v = true)
    (h4 : ∀ q ∈ rp.withAncestors, fs.isFile q = false) :
    prepare_grid_combinations parameters rp false fs =
      .ok ((listProduct (argsLists parameters)).map
             (fun ps => GridCombination.mk rp ps),
           ⟨rp.withAncestors ++ fs.dirs, fs.files⟩) := by
  have hmk : rp.withAncestors.any (fun q => fs.isFile q) = false := by
    simp only [List.any_eq_false]
    intro q hq
    simp [h4 q hq]
  have hdir : FileSystem.isDir ⟨rp.withAncestors ++ fs.dirs, fs.files⟩ rp = true := by
    simp only [FileSystem.isDir, List.any_eq_true, decide_eq_true_eq]
    exact ⟨rp, List.mem_append.mpr (Or.inl (FsPath.self_mem_withAncestors rp)), rfl⟩
  have hmake : ∀ c ∈ listProduct (argsLists parameters),
      makeCombination ⟨rp.withAncestors ++ fs.dirs, fs.files⟩ rp
        (parameters.map Prod.fst) c = .ok ⟨rp, c⟩ := by
    intro c hc
    have hnames := listProduct_argsLists_names parameters c hc
    have hsort : sort_by_order (parameters.map Prod.fst) c = .ok c :=
      sort_by_order_id c _ hnames h2
    have hne : c ≠ [] := by
      intro hnil
      apply h1
      have hmap0 : parameters.map Prod.fst = [] := by
        rw [← hnames, hnil]
        rfl
      exact List.map_eq_nil_iff.mp hmap0
    rw [makeCombination, hsort]
    exact GridCombination.make_ok _ rp c hne hdir
  have hmapME : mapME (makeCombination ⟨rp.withAncestors ++ fs.dirs, fs.files⟩ rp
        (parameters.map Prod.fst)) (listProduct (argsLists parameters))
      = .ok ((listProduct (argsLists parameters)).map
          (fun ps => GridCombination.mk rp ps)) :=
    mapME_ok _ _ _ hmake
  have hval : ∀ c ∈ (listProduct (argsLists parameters)).map
      (fun ps => GridCombination.mk rp ps), GridCombination.validate c = .ok () := by
    intro c hcm
    obtain ⟨ps, hps, rfl⟩ := List.mem_map.mp hcm
    have hr := listProduct_argsLists_renderable parameters h3 ps hps
    have hpaths : mapME GridParameter.to_path ps =
        .ok (ps.map (fun p => p.name ++ "=" ++ p.value.render)) :=
      mapME_ok _ _ _ (fun p hp => GridParameter.to_path_ok p (hr p hp))
    simp [GridCombination.validate, GridCombination.get_relative_result_path, hpaths]
  have hvalM : mapME GridCombination.validate
      ((listProduct (argsLists parameters)).map (fun ps => GridCombination.mk rp ps))
      = .ok (((listProduct (argsLists parameters)).map
          (fun ps => GridCombination.mk rp ps)).map (fun _ => ())) :=
    mapME_ok _ _ _ hval
  simp only [prepare_grid_combinations, Bool.false_eq_true, if_false,
    FileSystem.mkdirParents, hmk, hmapME, hvalM]

/-- C3: on a grid with distinct keys and non-empty, path-renderable candidate
lists, `prepare_grid_combinations` returns exactly the Cartesian product of
the per-key parameter lists — one combination per product element, so the
product of the list lengths in total — and every returned combination's
parameter tuple follows the declaration order of the grid's keys. -/
theorem prepare_grid_combinations_cartesian (parameters : List (String × List PyValue))
    (rp : FsPath) (fs : FileSystem)
    (h1 : parameters ≠ [])
    (h2 : (parameters.map Prod.fst).Nodup)
    (h3 : ∀ nv ∈ parameters, ∀ v ∈ nv.2, PyValue.renderable v = true)
    (h4 : ∀ q ∈ rp.withAncestors, fs.isFile q = false) :
    ∃ fs2, prepare_grid_combinations parameters rp false fs =
        .ok ((listProduct (argsLists parameters)).map
          (fun ps => GridCombination.mk rp ps), fs2) ∧
      ((listProduct (argsLists parameters)).map
          (fun ps => GridCombination.mk rp ps)).length =
        (parameters.map (fun nv => nv.2.length)).prod ∧
      ∀ c ∈ (listProduct (argsLists parameters)).map
          (fun ps => GridCombination.mk rp ps),
        c.parameters.map GridParameter.name = parameters.map Prod.fst := by
  refine ⟨_, prepare_ok parameters rp fs h1 h2 h3 h4, ?_, ?_⟩
  · rw [List.length_map, listProduct_length]
    congr 1
    rw [argsLists, List.map_map]
    refine List.map_congr_left (fun nv _ => ?_)
    simp [Function.comp]
  · intro c hcm
    obtain ⟨ps, hps, rfl⟩ := List.mem_map.mp hcm
    exact listProduct_argsLists_names parameters ps hps

/-- Witness for C3: the spec's own example grid `{"a": [1, 2], "b": [10, 20]}`
against an empty filesystem. -/
theorem prepare_grid_combinations_cartesian_witness :
    ∃ fs2, prepare_grid_combinations
        [("a", [PyValue.int 1, PyValue.int 2]), ("b", [PyValue.int 10, PyValue.int 20])]
        ⟨true, ["res"]⟩ false ⟨[], []⟩ =
      .ok ((listProduct (argsLists
          [("a", [PyValue.int 1, PyValue.int 2]), ("b", [PyValue.int 10, PyValue.int 20])])).map
        (fun ps => GridCombination.mk ⟨true, ["res"]⟩ ps), fs2) ∧
      ((listProduct (argsLists
          [("a", [PyValue.int 1, PyValue.int 2]), ("b", [PyValue.int 10, PyValue.int 20])])).map
        (fun ps => GridCombination.mk ⟨true, ["res"]⟩ ps)).length =
        ([("a", [PyValue.int 1, PyValue.int 2]), ("b", [PyValue.int 10, PyValue.int 20])].map
          (fun nv => nv.2.length)).prod ∧
      ∀ c ∈ (listProduct (argsLists
          [("a", [PyValue.int 1, PyValue.int 2]), ("b", [PyValue.int 10, PyValue.int 20])])).map
        (fun ps => GridCombination.mk ⟨true, ["res"]⟩ ps),
        c.parameters.map GridParameter.name =
          [("a", [PyValue.int 1, PyValue.int 2]), ("b", [PyValue.int 10, PyValue.int 20])].map
            Prod.fst :=
  prepare_grid_combinations_cartesian _ _ _ (by decide) (by decide) (by decide) (by decide)

/-- C5 (amended): `prepare_grid_combinations` performs no collision check.
Two distinct product combinations whose derived result subdirectories
coincide are both returned successfully; per-combination validation only
checks that each path is constructible, so the collision is never raised at
preparation time. -/
theorem collision_passthrough (parameters : List (String × List PyValue))
    (rp : FsPath) (fs : FileSystem)
    (h1 : parameters ≠ [])
    (h2 : (parameters.map Prod.fst).Nodup)
    (h3 : ∀ nv ∈ parameters, ∀ v ∈ nv.2, PyValue.renderable v = true)
    (h4 : ∀ q ∈ rp.withAncestors, fs.isFile q = false)
    (c1 c2 : List GridParameter)
    (hm1 : c1 ∈ listProduct (argsLists parameters))
    (hm2 : c2 ∈ listProduct (argsLists parameters))
    (hne : c1 ≠ c2)
    (hcol : GridCombination.get_relative_result_path ⟨rp, c1⟩ =
            GridCombination.get_relative_result_path ⟨rp, c2⟩) :
    ∃ combos fs2, prepare_grid_combinations parameters rp false fs = .ok (combos, fs2) ∧
      GridCombination.mk rp c1 ∈ combos ∧ GridCombination.mk rp c2 ∈ combos ∧
      GridCombination.mk rp c1 ≠ GridCombination.mk rp c2 ∧
      GridCombination.get_relative_result_path ⟨rp, c1⟩ =
        GridCombination.get_relative_result_path ⟨rp, c2⟩ := by
  refine ⟨_, _, prepare_ok parameters rp fs h1 h2 h3 h4,
    List.mem_map_of_mem _ hm1, List.mem_map_of_mem _ hm2, ?_, hcol⟩
  intro h
  apply hne
  exact (GridCombination.mk.injEq rp c1 rp c2 |>.mp h).2

/-- Witness for C5's amended statement: the colliding grid
`{"a": [1, "1"]}` — both combinations render the subdirectory `a=1`. -/
theorem collision_passthrough_witness :
    ∃ combos fs2, prepare_grid_combinations [("a", [PyValue.int 1, PyValue.str "1"])]
        ⟨true, ["res"]⟩ false ⟨[], []⟩ = .ok (combos, fs2) ∧
      GridCombination.mk ⟨true, ["res"]⟩ [c5P1] ∈ combos ∧
      GridCombination.mk ⟨true, ["res"]⟩ [c5P2] ∈ combos ∧
      GridCombination.mk ⟨true, ["res"]⟩ [c5P1] ≠ GridCombination.mk ⟨true, ["res"]⟩ [c5P2] ∧
      GridCombination.get_relative_result_path ⟨⟨true, ["res"]⟩, [c5P1]⟩ =
        GridCombination.get_relative_result_path ⟨⟨true, ["res"]⟩, [c5P2]⟩ :=
  collision_passthrough _ _ _ (by decide) (by decide) (by decide) (by decide)
    [c5P1] [c5P2] (by decide) (by decide) (by decide) (by decide)

/-! ## `run_grid_combination` as a resumable cache -/

/-- A combination stored under a relative result root `r`. -/
def c2Combo : GridCombination := ⟨⟨false, ["r"]⟩, [⟨"a", PyValue.int 1⟩]⟩

/-- The artifact already sitting at the combination's derived result
directory `r/a=1/result.pickle`. -/
def c2Stored : GridSearchResult := ⟨c2Combo, 99, false⟩

def c2Fs : FileSystem :=
  ⟨[⟨false, ["r"]⟩, ⟨false, ["r", "a=1"]⟩],
   [(⟨false, ["r", "a=1", "result.pickle"]⟩, c2Stored)]⟩

/-- A worker producing a fresh, distinguishable result. -/
def c2Worker : Worker := fun _ _ => .ok ⟨c2Combo, 42, false⟩

/-- C2 counterexample: with a relative `result_path`, the artifact exists at
the combination's derived result directory, yet `run_grid_combination`
invokes the worker and returns the fresh result with `cached=False` —
`has_result` prefixes `result_path` a second time
(`base_path.joinpath(get_full_result_path())`) and probes `r/r/a=1` instead
of `r/a=1`. -/
theorem run_grid_combination_counterexample :
    GridCombination.get_full_result_path c2Combo = .ok ⟨false, ["r", "a=1"]⟩ ∧
    c2Fs.fileContent ((⟨false, ["r", "a=1"]⟩ : FsPath).child "result.pickle")
      = some c2Stored ∧
    GridSearchResult.has_result c2Fs c2Combo = .ok false ∧
    ∃ fsx, run_grid_combination c2Worker 0 c2Combo c2Fs =
      .ok (⟨c2Combo, 42, false⟩, fsx) := by
  refine ⟨by decide, by decide, by decide, ⟨_, rfl⟩⟩

/-- With an absolute `result_path`, the double `joinpath` in `has_result`
collapses (`joinpath` with an absolute operand ignores the left side). -/
theorem full_result_path_absolute (c : GridCombination) (full : FsPath)
    (habs : c.result_path.absolute = true)
    (hfull : c.get_full_result_path = .ok full) :
    c.result_path.joinpath full = full := by
  rw [GridCombination.get_full_result_path] at hfull
  cases hrel : c.get_relative_result_path with
  | error e =>
    rw [hrel] at hfull
    exact absurd hfull (by simp)
  | ok segs =>
    rw [hrel] at hfull
    injection hfull with h
    rw [← h]
    simp [FsPath.joinpath, habs]

/-- Cache hit behaviour of `run_grid_combination` for an absolute result
root: the stored artifact is returned with `cached := true`, the filesystem
is untouched, and the worker plays no role. -/
theorem run_grid_combination_hit (w : Worker) (u : Nat) (c : GridCombination)
    (fs : FileSystem) (full : FsPath) (stored : GridSearchResult)
    (habs : c.result_path.absolute = true)
    (hfull : c.get_full_result_path = .ok full)
    (hstored : fs.fileContent (full.child "result.pickle") = some stored) :
    run_grid_combination w u c fs = .ok ({ stored with cached := true }, fs) := by
  have hjoin := full_result_path_absolute c full habs hfull
  have hhr : GridSearchResult.has_result fs c = .ok true := by
    simp [GridSearchResult.has_result, hfull, hjoin, FileSystem.pathExists,
      FileSystem.isFile, hstored]
  have hload : GridSearchResult.load fs c = .ok { stored with cached := true } := by
    simp [GridSearchResult.load, hfull, hstored]
  simp only [run_grid_combination, hhr, hload]

/-- Cache miss behaviour of `run_grid_combination` for an absolute result
root: the worker's result is persisted to the artifact path and returned
unchanged. -/
theorem run_grid_combination_miss (w : Worker) (u : Nat) (c : GridCombination)
    (fs : FileSystem) (full : FsPath) (r : GridSearchResult)
    (habs : c.result_path.absolute = true)
    (hfull : c.get_full_result_path = .ok full)
    (habsent : fs.pathExists (full.child "result.pickle") = false)
    (hw : w u c = .ok r)
    (hrc : r.combination = c)
    (hmk : ∀ q ∈ full.withAncestors, fs.isFile q = false) :
    run_grid_combination w u c fs =
      .ok (r, FileSystem.writeFile ⟨full.withAncestors ++ fs.dirs, fs.files⟩
        (full.child "result.pickle") r) := by
  have hjoin := full_result_path_absolute c full habs hfull
  have hhr : GridSearchResult.has_result fs c = .ok false := by
    simp [GridSearchResult.has_result, hfull, hjoin, habsent]
  have hmkb : full.withAncestors.any (fun q => fs.isFile q) = false := by
    simp only [List.any_eq_false]
    intro q hq
    simp [hmk q hq]
  have hsave : GridSearchResult.save fs r =
      .ok (FileSystem.writeFile ⟨full.withAncestors ++ fs.dirs, fs.files⟩
        (full.child "result.pickle") r) := by
    simp [GridSearchResult.save, hrc, hfull, FileSystem.mkdirParents, hmkb,
      FileSystem.writeFile]
  simp only [run_grid_combination, hhr, hw, hsave]

/-- C2 (amended): for an absolute `result_path`, `run_grid_combination` is a
resumable cache — an existing `result.pickle` is deserialised and returned
with `cached=True`, independently of the worker; a missing artifact makes
the call return the worker's result unchanged (the repository's workers
construct it with the default `cached=False`) after persisting it at the
artifact path. -/
theorem run_grid_combination_cache (w : Worker) (u : Nat) (c : GridCombination)
    (fs : FileSystem) (full : FsPath)
    (habs : c.result_path.absolute = true)
    (hfull : c.get_full_result_path = .ok full) :
    (∀ stored, fs.fileContent (full.child "result.pickle") = some stored →
      run_grid_combination w u c fs = .ok ({ stored with cached := true }, fs) ∧
      ∀ w2 : Worker, run_grid_combination w2 u c fs = run_grid_combination w u c fs) ∧
    (fs.pathExists (full.child "result.pickle") = false →
      ∀ r, w u c = .ok r → r.combination = c →
      (∀ q ∈ full.withAncestors, fs.isFile q = false) →
      run_grid_combination w u c fs =
        .ok (r, FileSystem.writeFile ⟨full.withAncestors ++ fs.dirs, fs.files⟩
          (full.child "result.pickle") r)) := by
  constructor
  · intro stored hstored
    refine ⟨run_grid_combination_hit w u c fs full stored habs hfull hstored, fun w2 => ?_⟩
    rw [run_grid_combination_hit w u c fs full stored habs hfull hstored,
        run_grid_combination_hit w2 u c fs full stored habs hfull hstored]
  · intro habsent r hw hrc hmk
    exact run_grid_combination_miss w u c fs full r habs hfull habsent hw hrc hmk

/-- A combination with an absolute result root for the C2 witness. -/
def c2AbsCombo : GridCombination := ⟨⟨true, ["res"]⟩, [⟨"a", PyValue.int 1⟩]⟩

def c2AbsStored : GridSearchResult := ⟨c2AbsCombo, 7, false⟩

def c2AbsFs : FileSystem :=
  ⟨[⟨true, ["res"]⟩], [(⟨true, ["res", "a=1", "result.pickle"]⟩, c2AbsStored)]⟩

/-- A worker whose fresh result is distinguishable from the stored one. -/
def c2AbsWorker : Worker := fun _ _ => .ok ⟨c2AbsCombo, 1000, false⟩

/-- Witness for C2's amended statement: a cache hit under an absolute result
root returns the stored artifact with `cached=True` and ignores the worker. -/
theorem run_grid_combination_cache_witness :
    run_grid_combination c2AbsWorker 0 c2AbsCombo c2AbsFs =
      .ok ({ c2AbsStored with cached := true }, c2AbsFs) :=
  ((run_grid_combination_cache c2AbsWorker 0 c2AbsCombo c2AbsFs ⟨true, ["res", "a=1"]⟩
    (by decide) (by decide)).1 c2AbsStored (by decide)).1

/-! ## Fail-fast propagation in `perform_grid_search` -/

theorem run_grid_combination_worker_error (w : Worker) (u : Nat)
    (c : GridCombination) (fs : FileSystem) (e : PyErr)
    (hhr : GridSearchResult.has_result fs c = .ok false)
    (hw : w u c = .error e) :
    run_grid_combination w u c fs = .error e := by
  simp only [run_grid_combination, hhr, hw]

/-- C4: when the worker raises on a combination (whose artifact is not
cached) after a prefix of combinations processed successfully,
`perform_grid_search` aborts: no result list is produced for the batch, and
exactly the exception raised at the offending combination is re-raised to
the caller.  The statement covers the sequential branch's semantics; the
threaded branch maps the same `run_grid_combination` under error policy
RAISE, aborting identically. -/
theorem perform_grid_search_fail_fast (w : Worker) (u : Nat)
    (pre post : List GridCombination) (c : GridCombination)
    (fs fs1 : FileSystem) (rs : List GridSearchResult) (e : PyErr)
    (hpre : perform_grid_search w u pre fs = .ok (rs, fs1))
    (hnores : GridSearchResult.has_result fs1 c = .ok false)
    (hw : w u c = .error e) :
    perform_grid_search w u (pre ++ c :: post) fs = .error e := by
  induction pre generalizing fs rs with
  | nil =>
    simp only [perform_grid_search] at hpre
    injection hpre with h
    injection h with h1 h2
    subst h2
    simp only [List.nil_append, perform_grid_search,
      run_grid_combination_worker_error w u c _ e hnores hw]
  | cons p pre2 ih =>
    cases hrp : run_grid_combination w u p fs with
    | error e2 =>
      simp only [perform_grid_search, hrp] at hpre
      exact absurd hpre (by simp)
    | ok rf =>
      obtain ⟨r, f1⟩ := rf
      simp only [perform_grid_search, hrp] at hpre
      cases hpp : perform_grid_search w u pre2 f1 with
      | error e2 =>
        rw [hpp] at hpre
        exact absurd hpre (by simp)
      | ok rsf =>
        obtain ⟨rs2, fs2⟩ := rsf
        rw [hpp] at hpre
        injection hpre with h
        injection h with h1 h2
        subst h2
        have hrec := ih f1 rs2 hpp
        simp only [List.cons_append, perform_grid_search, hrp, List.append_eq, hrec]

/-- A worker that always raises, for the C4 witness. -/
def c4Worker : Worker := fun _ _ => .error (.workerError 13)

def c4Combo : GridCombination := ⟨⟨true, ["res"]⟩, [⟨"a", PyValue.int 1⟩]⟩

/-- Witness for C4: one uncached combination whose worker raises aborts the
search with that very exception. -/
theorem perform_grid_search_fail_fast_witness :
    perform_grid_search c4Worker 0 [c4Combo] ⟨[⟨true, ["res"]⟩], []⟩ =
      .error (.workerError 13) :=
  perform_grid_search_fail_fast c4Worker 0 [] [] c4Combo
    ⟨[⟨true, ["res"]⟩], []⟩ ⟨[⟨true, ["res"]⟩], []⟩ [] (.workerError 13)
    rfl (by decide) rfl

/-! ## Idempotent recomputation of indicators -/

theorem storeGet_set_same (files : List (FsPath × Nat)) (p : FsPath) (d : Nat) :
    storeGet (storeSet files p d) p = some d := by
  rw [storeGet, storeSet, List.find?_cons_of_pos]
  · rfl
  · simp

theorem storeGet_set_other (files : List (FsPath × Nat)) (p q : FsPath) (d : Nat)
    (h : q ≠ p) : storeGet (storeSet files p d) q = storeGet files q := by
  rw [storeGet, storeSet, List.find?_cons_of_neg]
  · rfl
  · simp [Ne.symm h]

/-- Keys whose artifact paths avoid `q` leave the store at `q` untouched. -/
theorem calcLoadGo_preserve (storage : IndicatorStorage) (candles : TradingPairId → Nat) :
    ∀ (keys : List (TradingPairId × IndicatorDefinition)) (files : List (FsPath × Nat))
      (q : FsPath), (∀ k ∈ keys, storage.get_indicator_path k.2 k.1 ≠ q) →
    storeGet (calcLoadGo storage candles keys files).2 q = storeGet files q := by
  intro keys
  induction keys with
  | nil =>
    intro files q h
    rfl
  | cons k rest ih =>
    intro files q h
    cases hg : storeGet files (storage.get_indicator_path k.2 k.1) with
    | some d =>
      simp only [calcLoadGo, hg]
      exact ih files q (fun k2 hk2 => h k2 (by simp [hk2]))
    | none =>
      simp only [calcLoadGo, hg]
      rw [ih _ q (fun k2 hk2 => h k2 (by simp [hk2]))]
      exact storeGet_set_other _ _ _ _ (Ne.symm (h k (by simp)))

/-- Re-running the calculation loop over the store the first run produced
serves every key from the cache: same keys, same data, `cached := true`,
store untouched — provided distinct keys use distinct artifact paths. -/
theorem calcLoadGo_idem (storage : IndicatorStorage) (candles : TradingPairId → Nat) :
    ∀ (keys : List (TradingPairId × IndicatorDefinition)) (files : List (FsPath × Nat)),
    (keys.map (fun k => storage.get_indicator_path k.2 k.1)).Nodup →
    calcLoadGo storage candles keys (calcLoadGo storage candles keys files).2 =
      ((calcLoadGo storage candles keys files).1.map
          (fun kr => (kr.1, ⟨kr.2.data, true⟩)),
        (calcLoadGo storage candles keys files).2) := by
  intro keys
  induction keys with
  | nil =>
    intro files _
    rfl
  | cons k rest ih =>
    intro files hnd
    simp only [List.map_cons, List.nodup_cons] at hnd
    obtain ⟨hnotin, hndrest⟩ := hnd
    have hnp : ∀ k2 ∈ rest,
        storage.get_indicator_path k2.2 k2.1 ≠ storage.get_indicator_path k.2 k.1 := by
      intro k2 hk2 heq
      exact hnotin (heq ▸ List.mem_map_of_mem _ hk2)
    cases hg : storeGet files (storage.get_indicator_path k.2 k.1) with
    | some d =>
      have hpres : storeGet (calcLoadGo storage candles rest files).2
          (storage.get_indicator_path k.2 k.1) = some d := by
        rw [calcLoadGo_preserve storage candles rest files _ hnp]
        exact hg
      simp only [calcLoadGo, hg, hpres]
      rw [ih files hndrest]
      simp
    | none =>
      have hpres : storeGet (calcLoadGo storage candles rest
            (storeSet files (storage.get_indicator_path k.2 k.1)
              (k.2.func.transform k.2.parameters (candles k.1)))).2
          (storage.get_indicator_path k.2 k.1) =
          some (k.2.func.transform k.2.parameters (candles k.1)) := by
        rw [calcLoadGo_preserve storage candles rest _ _ hnp, storeGet_set_same]
      simp only [calcLoadGo, hg, hpres]
      rw [ih _ hndrest]
      simp

/-- C1 (modelled from the spec — `calculate_and_load_indicators` lives in the
missing module `tradeexecutor/strategy/pandas_trader/indicator.py`): calling
the engine twice with identical arguments against an unchanged cache
directory returns, on the second call, the same result for every
(pair, indicator) key with `cached = true` and bit-identical data, and
leaves the cache directory unchanged.  The hypothesis asks distinct keys to
use distinct artifact paths, which the content-addressed naming scheme
provides for the registered indicator names. -/
theorem calculate_and_load_indicators_idempotent (pairs : List TradingPairId)
    (candles : TradingPairId → Nat) (storage : IndicatorStorage)
    (regs : List IndicatorDefinition) (files : List (FsPath × Nat))
    (h : ((indicatorKeys pairs (indicatorSetDefs regs)).map
        (fun k => storage.get_indicator_path k.2 k.1)).Nodup) :
    calculate_and_load_indicators pairs candles storage regs
        (calculate_and_load_indicators pairs candles storage regs files).2 =
      ((calculate_and_load_indicators pairs candles storage regs files).1.map
          (fun kr => (kr.1, ⟨kr.2.data, true⟩)),
        (calculate_and_load_indicators pairs candles storage regs files).2) :=
  calcLoadGo_idem storage candles _ files h

/-- The `pandas_ta.rsi`-like indicator function of the C1/C8 witnesses. -/
def rsiFunc : IndicatorFunction :=
  ⟨["close", "length", "scalar", "talib", "drift", "offset"],
   fun ps x => x + ps.length⟩

/-- The `pandas_ta.sma`-like indicator function of the C1/C8 witnesses. -/
def smaFunc : IndicatorFunction :=
  ⟨["close", "length", "talib", "offset"],
   fun ps x => 2 * x + ps.length⟩

def wRsi : IndicatorDefinition := ⟨"rsi", rsiFunc, [("length", PyValue.int 20)]⟩

def wSma : IndicatorDefinition := ⟨"sma_long", smaFunc, [("length", PyValue.int 200)]⟩

def wPairs : List TradingPairId := [⟨"WETH", "USDC"⟩, ⟨"WBTC", "USDC"⟩]

def wStorage : IndicatorStorage := ⟨⟨true, ["cache"]⟩, "ethereum,1d"⟩

def wCandles : TradingPairId → Nat := fun pr => pr.base.length

/-- Witness for C1: two pairs, two indicators, empty cache. -/
theorem calculate_and_load_indicators_idempotent_witness :
    calculate_and_load_indicators wPairs wCandles wStorage [wRsi, wSma]
        (calculate_and_load_indicators wPairs wCandles wStorage [wRsi, wSma] []).2 =
      ((calculate_and_load_indicators wPairs wCandles wStorage [wRsi, wSma] []).1.map
          (fun kr => (kr.1, ⟨kr.2.data, true⟩)),
        (calculate_and_load_indicators wPairs wCandles wStorage [wRsi, wSma] []).2) :=
  calculate_and_load_indicators_idempotent wPairs wCandles wStorage [wRsi, wSma] []
    (by decide)

/-- C8 (modelled from the spec — `IndicatorDefinition` construction lives in
the missing indicator module): construction succeeds exactly when every
parameter key is an accepted keyword argument of the indicator function, and
a failure is a signature-mismatch error naming precisely the offending
parameters (so nothing is registered on failure). -/
theorem indicator_define_signature (n : String) (f : IndicatorFunction)
    (ps : List (String × PyValue)) :
    (IndicatorDefinition.define n f ps = .ok ⟨n, f, ps⟩ ↔
      ∀ k ∈ ps.map Prod.fst, f.accepted_args.contains k = true) ∧
    (∀ e, IndicatorDefinition.define n f ps = .error e →
      e = .signatureMismatch ((ps.map Prod.fst).filter
        (fun k => ¬ f.accepted_args.contains k)) ∧
      ∃ k ∈ ps.map Prod.fst, f.accepted_args.contains k = false) := by
  by_cases hoff : (ps.map Prod.fst).filter (fun k => ¬ f.accepted_args.contains k) = []
  · have hdef : IndicatorDefinition.define n f ps = .ok ⟨n, f, ps⟩ := by
      simp only [IndicatorDefinition.define, hoff]
    refine ⟨⟨fun _ k hk => ?_, fun _ => hdef⟩, fun e he => ?_⟩
    · by_contra hc
      have hmem : k ∈ (ps.map Prod.fst).filter (fun k => ¬ f.accepted_args.contains k) :=
        List.mem_filter.mpr ⟨hk, by simpa using hc⟩
      rw [hoff] at hmem
      exact absurd hmem (List.not_mem_nil k)
    · rw [hdef] at he
      exact absurd he (by simp)
  · obtain ⟨a, l, hl⟩ := List.exists_cons_of_ne_nil hoff
    have hdef : IndicatorDefinition.define n f ps =
        .error (.signatureMismatch ((ps.map Prod.fst).filter
          (fun k => ¬ f.accepted_args.contains k))) := by
      simp only [IndicatorDefinition.define, hl]
    refine ⟨⟨fun hok => ?_, fun hall => ?_⟩, fun e he => ?_⟩
    · rw [hdef] at hok
      exact absurd hok (by simp)
    · exfalso
      apply hoff
      refine List.filter_eq_nil_iff.mpr (fun k hk => ?_)
      simpa using hall k hk
    · rw [hdef] at he
      injection he with h
      refine ⟨h.symm, ?_⟩
      obtain ⟨k, hk⟩ := List.exists_mem_of_ne_nil _ hoff
      obtain ⟨hk1, hk2⟩ := List.mem_filter.mp hk
      refine ⟨k, hk1, ?_⟩
      simpa using hk2

/-- Witness for C8: `sma` rejects the misspelled `lengthx` naming it, and
accepts `length`. -/
theorem indicator_define_signature_witness :
    IndicatorDefinition.define "sma" smaFunc [("lengthx", PyValue.int 21)] =
      .error (.signatureMismatch ["lengthx"]) ∧
    IndicatorDefinition.define "sma" smaFunc [("length", PyValue.int 21)] =
      .ok ⟨"sma", smaFunc, [("length", PyValue.int 21)]⟩ := by
  constructor
  · rfl
  · exact (indicator_define_signature "sma" smaFunc
      [("length", PyValue.int 21)]).1.mpr (by decide)

/-- C9 (modelled from the spec — naming lives in the missing indicator
module): the rendered path fragment lists the parameters as `k=v` pairs in
insertion order — `sma` with `{length: 21, offset: 1}` renders
`sma(length=21,offset=1)` — and the artifact path for (definition, pair) is
`<root>/<universe_key>/<fragment>-<BASE>-<QUOTE>.parquet`, computed purely
from the inputs (the model has no I/O effects at all). -/
theorem indicator_path_deterministic :
    (∀ f : IndicatorFunction,
      IndicatorDefinition.render_path_fragment
        ⟨"sma", f, [("length", PyValue.int 21), ("offset", PyValue.int 1)]⟩ =
        "sma(length=21,offset=1)") ∧
    (∀ (s : IndicatorStorage) (d : IndicatorDefinition) (pr : TradingPairId),
      s.get_indicator_path d pr =
        ⟨s.path.absolute, s.path.segments ++
          [s.universe_key,
           d.render_path_fragment ++ "-" ++ pr.base ++ "-" ++ pr.quote ++ ".parquet"]⟩) := by
  constructor
  · intro f
    rfl
  · intro s d pr
    simp [IndicatorStorage.get_indicator_path, FsPath.child]
